import Mathlib

/-!
Shallow embedding of the credential / session / verification core of the
matrix-web repository (src/credentials.rs and src/bot.rs).

Byte strings (the contents of Rust `&[u8]` / `Vec<u8>` values and the UTF-8
bytes of Rust `&str` values) are modelled as `List Nat`, each element a byte
value.  SQLite and filesystem I/O errors are outside the model: every
`Connection::open`/`init_db` pair is assumed to succeed, so the persistent
store is just the (at most one) logical credentials row with `id = 1`.
-/

namespace MatrixWeb

/-! ### SHA-256 (the `sha2` crate's `Sha256`, as used by `encrypt_password`) -/

def w32 : Nat := 4294967296

def rotr32 (n x : Nat) : Nat :=
  (x >>> n) ||| ((x <<< (32 - n)) % w32)

def bsig0 (x : Nat) : Nat := rotr32 2 x ^^^ rotr32 13 x ^^^ rotr32 22 x

def bsig1 (x : Nat) : Nat := rotr32 6 x ^^^ rotr32 11 x ^^^ rotr32 25 x

def ssig0 (x : Nat) : Nat := rotr32 7 x ^^^ rotr32 18 x ^^^ (x >>> 3)

def ssig1 (x : Nat) : Nat := rotr32 17 x ^^^ rotr32 19 x ^^^ (x >>> 10)

def chf (x y z : Nat) : Nat := (x &&& y) ^^^ ((x ^^^ 4294967295) &&& z)

def majf (x y z : Nat) : Nat := (x &&& y) ^^^ (x &&& z) ^^^ (y &&& z)

def K256 : List Nat :=
  [1116352408, 1899447441, 3049323471, 3921009573, 961987163,
   1508970993, 2453635748, 2870763221, 3624381080, 310598401,
   607225278, 1426881987, 1925078388, 2162078206, 2614888103,
   3248222580, 3835390401, 4022224774, 264347078, 604807628,
   770255983, 1249150122, 1555081692, 1996064986, 2554220882,
   2821834349, 2952996808, 3210313671, 3336571891, 3584528711,
   113926993, 338241895, 666307205, 773529912, 1294757372,
   1396182291, 1695183700, 1986661051, 2177026350, 2456956037,
   2730485921, 2820302411, 3259730800, 3345764771, 3516065817,
   3600352804, 4094571909, 275423344, 430227734, 506948616,
   659060556, 883997877, 958139571, 1322822218, 1537002063,
   1747873779, 1955562222, 2024104815, 2227730452, 2361852424,
   2428436474, 2756734187, 3204031479, 3329325298]

def H256 : List Nat :=
  [1779033703, 3144134277, 1013904242, 2773480762,
   1359893119, 2600822924, 528734635, 1541459225]

/-- SHA-256 padding: append 0x80, zero bytes, and the 64-bit big-endian bit
length, so that the total length is a multiple of 64 bytes. -/
def sha256pad (msg : List Nat) : List Nat :=
  let len := msg.length
  let bitlen := len * 8
  let padlen := (55 + 64 - len % 64) % 64
  msg ++ 128 :: List.replicate padlen 0 ++
    [(bitlen >>> 56) % 256, (bitlen >>> 48) % 256, (bitlen >>> 40) % 256,
     (bitlen >>> 32) % 256, (bitlen >>> 24) % 256, (bitlen >>> 16) % 256,
     (bitlen >>> 8) % 256, bitlen % 256]

/-- Group bytes four at a time into big-endian 32-bit words. -/
def toWords : List Nat → List Nat
  | a :: b :: c :: d :: rest => (((a * 256 + b) * 256 + c) * 256 + d) :: toWords rest
  | _ => []

/-- Split a byte list into 64-byte blocks (fuel-driven so it reduces in the
kernel; fuel `l.length` always suffices). -/
def chunks64Aux : Nat → List Nat → List (List Nat)
  | 0, _ => []
  | _, [] => []
  | fuel + 1, l => l.take 64 :: chunks64Aux fuel (l.drop 64)

def chunks64 (l : List Nat) : List (List Nat) := chunks64Aux l.length l

/-- Extend the 16-word message schedule; called with fuel 48 to reach 64. -/
def extendW : Nat → List Nat → List Nat
  | 0, w => w
  | fuel + 1, w =>
    let n := w.length
    let x := (ssig1 (w.getD (n - 2) 0) + w.getD (n - 7) 0 +
              ssig0 (w.getD (n - 15) 0) + w.getD (n - 16) 0) % w32
    extendW fuel (w ++ [x])

/-- One round of the SHA-256 compression function on state `[a,b,c,d,e,f,g,h]`. -/
def compressRound (st : List Nat) (kt wt : Nat) : List Nat :=
  match st with
  | [a, b, c, d, e, f, g, h] =>
    let t1 := (h + bsig1 e + chf e f g + kt + wt) % w32
    let t2 := (bsig0 a + majf a b c) % w32
    [(t1 + t2) % w32, a, b, c, (d + t1) % w32, e, f, g]
  | other => other

def compressBlock (h : List Nat) (block : List Nat) : List Nat :=
  let w := extendW 48 (toWords block)
  let s := (K256.zip w).foldl (fun st kw => compressRound st kw.1 kw.2) h
  (h.zip s).map (fun p => (p.1 + p.2) % w32)

def wordBytes (x : Nat) : List Nat :=
  [(x >>> 24) % 256, (x >>> 16) % 256, (x >>> 8) % 256, x % 256]

/-- SHA-256 of a byte list, as a list of 32 bytes. -/
def sha256 (msg : List Nat) : List Nat :=
  ((chunks64 (sha256pad msg)).foldl compressBlock H256).foldr
    (fun x acc => wordBytes x ++ acc) []

/-! ### UTF-8 validity (Rust `String::from_utf8` succeeds iff the bytes are
well-formed UTF-8: no overlong encodings, no surrogates, max U+10FFFF) -/

def isCont (b : Nat) : Bool := 128 ≤ b && b < 192

def isValidUtf8 : List Nat → Bool
  | [] => true
  | b :: rest =>
    if b < 128 then isValidUtf8 rest
    else if b < 194 then false
    else if b < 224 then
      match rest with
      | b1 :: r => isCont b1 && isValidUtf8 r
      | [] => false
    else if b < 240 then
      match rest with
      | b1 :: b2 :: r =>
        (if b = 224 then 160 ≤ b1 && b1 < 192
         else if b = 237 then 128 ≤ b1 && b1 < 160
         else isCont b1) && isCont b2 && isValidUtf8 r
      | _ => false
    else if b < 245 then
      match rest with
      | b1 :: b2 :: b3 :: r =>
        (if b = 240 then 144 ≤ b1 && b1 < 192
         else if b = 244 then 128 ≤ b1 && b1 < 144
         else isCont b1) && isCont b2 && isCont b3 && isValidUtf8 r
      | _ => false
    else false

/-! ### CredentialStore (src/credentials.rs)

The persistent SQLite table holds at most one logical row (`id = 1`); the
model state is that optional row. -/

structure CredRow where
  username : String
  password_encrypted : List Nat
  device_id : Option String
  access_token_encrypted : Option (List Nat)
  user_id : Option String
deriving DecidableEq, Repr

/-- The persistent state of the credentials database: the optional `id = 1`
row of the `credentials` table. -/
def VaultState : Type := Option CredRow

instance : DecidableEq VaultState := by unfold VaultState; infer_instance

/-- Rust `password.as_bytes().iter().enumerate().map(|(i,&b)| b ^ key[i % key.len()])`:
byte-wise XOR against the repeating keystream, starting at index `i`. -/
def xorKeystream (key : List Nat) : Nat → List Nat → List Nat
  | _, [] => []
  | i, b :: rest => (b ^^^ key.getD (i % key.length) 0) :: xorKeystream key (i + 1) rest

/-- Rust `CredentialStore::encrypt_password`: XOR the data bytes against the
keystream `SHA-256(sqlite_password)` repeated. -/
def encrypt_password (password sqlite_password : List Nat) : List Nat :=
  xorKeystream (sha256 sqlite_password) 0 password

/-- Rust `CredentialStore::decrypt_password`: XOR with the same keystream, then
`String::from_utf8` — fails exactly when the result is not valid UTF-8. -/
def decrypt_password (encrypted : List Nat) (sqlite_password : List Nat) :
    Except String (List Nat) :=
  let decrypted := xorKeystream (sha256 sqlite_password) 0 encrypted
  if isValidUtf8 decrypted then .ok decrypted
  else .error "Failed to decrypt password"

/-- Rust `CredentialStore::credentials_exist`: `SELECT COUNT(*) > 0`. -/
def credentials_exist (st : VaultState) : Bool :=
  match st with
  | some _ => true
  | none => false

/-- Rust `CredentialStore::store_credentials`: encrypt the password, `DELETE` the
`id = 1` row, `INSERT` a fresh row holding only username and ciphertext
(the session columns are left NULL). -/
def store_credentials (_st : VaultState) (username : String)
    (password sqlite_password : List Nat) : VaultState :=
  some
    { username := username
      password_encrypted := encrypt_password password sqlite_password
      device_id := none
      access_token_encrypted := none
      user_id := none }

/-- Rust `CredentialStore::get_credentials`: `SELECT username, password_encrypted
WHERE id = 1` (a missing row surfaces as `QueryReturnedNoRows`), then decrypt. -/
def get_credentials (st : VaultState) (sqlite_password : List Nat) :
    Except String (String × List Nat) :=
  match st with
  | none => .error "QueryReturnedNoRows"
  | some row =>
    match decrypt_password row.password_encrypted sqlite_password with
    | .error e => .error e
    | .ok password => .ok (row.username, password)

/-- Rust `CredentialStore::session_exists`: true iff the row exists and all three
session columns are non-NULL and non-empty. -/
def session_exists (st : VaultState) : Bool :=
  match st with
  | some row =>
    match row.device_id, row.access_token_encrypted, row.user_id with
    | some d, some t, some u => !(d.isEmpty) && !(t.isEmpty) && !(u.isEmpty)
    | _, _, _ => false
  | none => false

/-- Rust `CredentialStore::store_session`: encrypt only the access token and
`UPDATE` the three session columns of the `id = 1` row; when no row exists
(`rows_affected == 0`), fail and leave the store unchanged. -/
def store_session (st : VaultState) (device_id : String) (access_token : List Nat)
    (user_id : String) (sqlite_password : List Nat) :
    Except String Unit × VaultState :=
  match st with
  | none =>
    (.error "No credentials row found to update session. Please login first.", none)
  | some row =>
    (.ok (), some
      { row with
        device_id := some device_id
        access_token_encrypted := some (encrypt_password access_token sqlite_password)
        user_id := some user_id })

/-- Rust `CredentialStore::get_session`: read the three session columns (missing
row surfaces as `QueryReturnedNoRows`), fail if any is NULL, decrypt the
token. -/
def get_session (st : VaultState) (sqlite_password : List Nat) :
    Except String (String × List Nat × String) :=
  match st with
  | none => .error "QueryReturnedNoRows"
  | some row =>
    match row.device_id with
    | none => .error "Session device_id is NULL"
    | some d =>
      match row.access_token_encrypted with
      | none => .error "Session access_token is NULL"
      | some tok =>
        match row.user_id with
        | none => .error "Session user_id is NULL"
        | some u =>
          match decrypt_password tok sqlite_password with
          | .error e => .error e
          | .ok access_token => .ok (d, access_token, u)

/-- Rust `CredentialStore::clear_session`: `UPDATE` the three session columns of
the `id = 1` row to NULL (a no-op when no row exists). -/
def clear_session (st : VaultState) : VaultState :=
  match st with
  | none => none
  | some row =>
    some { row with device_id := none, access_token_encrypted := none, user_id := none }

/-! ### MatrixBot (src/bot.rs)

The matrix-sdk protocol engine is an external collaborator; its observable
behaviour at each call site is supplied as an explicit environment.  Lookups
that the bot polls repeatedly are indexed by an abstract poll time `t`
(incremented across the bot's sleep points) so that eventually-consistent
engine state can be modelled. -/

structure VerificationRequestInfo where
  request_id : String
  other_user_id : String
  other_device_id : String
  status : String
deriving DecidableEq, Repr

structure SasInfo where
  request_id : String
  emoji : Option (List (String × String))
  decimals : Option (Nat × Nat × Nat)
deriving DecidableEq, Repr

/-- The bot state visible to the claims: `client.is_some()`, the message
history buffer, the tracked verification requests, and the single active
SAS challenge slot. -/
structure BotState where
  connected : Bool
  message_history : List String
  verification_requests : List VerificationRequestInfo
  active_sas : Option SasInfo
deriving DecidableEq, Repr

/-! #### Message history (MatrixBot::load_message_history_with_client) -/

inductive MsgType where
  | text (body : String)
  | other
deriving DecidableEq, Repr

/-- A deserialized original room-message timeline event. -/
structure TimelineEvent where
  sender : String
  msgtype : MsgType
deriving DecidableEq, Repr

/-- The body of the per-event loop: keep only text messages, formatted as
`"sender: body"`. -/
def formatEvent (e : TimelineEvent) : Option String :=
  match e.msgtype with
  | .text body => some (e.sender ++ ": " ++ body)
  | .other => none

/-- Rust `UInt::new(limit as u64).unwrap_or(UInt::new(50).unwrap())`: ruma's
`UInt` holds values up to `2^53 - 1`; larger limits fall back to 50. -/
def effLimit (limit : Nat) : Nat :=
  if limit < 2 ^ 53 then limit else 50

/-- Modelled from the spec: the engine's fetch-recent-messages call
(`client.send(get_message_events::Request::backward ...)`) returns the up to
`limit` most recent room messages in reverse-chronological order; the room
itself is a list of events, oldest first. -/
def fetchRecent (room : List TimelineEvent) (limit : Nat) : List TimelineEvent :=
  room.reverse.take limit

/-- Rust `MatrixBot::load_message_history_with_client`: if the room is known,
request up to `effLimit limit` messages; on success iterate the chunk in
reverse (oldest first), keep formatted text messages, and replace the
history buffer; on a send error the buffer is left unchanged and `Ok` is
still returned. -/
def load_message_history (roomKnown : Bool)
    (send : Nat → Except String (List TimelineEvent)) (limit : Nat)
    (st : BotState) : BotState :=
  if roomKnown then
    match send (effLimit limit) with
    | .ok chunk => { st with message_history := chunk.reverse.filterMap formatEvent }
    | .error _ => st
  else st

/-! #### Connect (MatrixBot::connect, MatrixBot::login_and_store_session) -/

/-- What `client.session()` exposes after a successful login. -/
structure SessionData where
  device_id : String
  access_token : List Nat
  user_id : String
deriving DecidableEq, Repr

/-- Outcomes of the engine calls made during `connect`. -/
structure ConnectEnv where
  /-- Engine call `client.matrix_auth().restore_session(..)` outcome. -/
  restoreResult : Except String Unit
  /-- Engine call `client.matrix_auth().login_username(..)` outcome. -/
  loginResult : Except String Unit
  /-- Engine call `client.session()` after a successful login. -/
  clientSession : Option SessionData
  /-- ruma `<&UserId>::try_from` validity. -/
  validUserId : String → Bool
  /-- ruma `<&RoomId>::try_from` validity. -/
  validRoomId : String → Bool
  /-- Engine call `client.join_room_by_id(..)` outcome. -/
  joinResult : Except String Unit
  /-- Engine call `client.get_room(room_id).is_some()` after joining. -/
  roomKnown : Bool
  /-- Engine call `client.send(get_message_events ..)` outcome, per requested limit. -/
  send : Nat → Except String (List TimelineEvent)

/-- Rust `MatrixBot::login_and_store_session`: log in (an error propagates), then
best-effort persist the session from `client.session()` — a `store_session`
failure is only logged. -/
def login_and_store_session (env : ConnectEnv) (store_passphrase : List Nat)
    (vault : VaultState) : Except String Unit × VaultState :=
  match env.loginResult with
  | .error e => (.error e, vault)
  | .ok _ =>
    match env.clientSession with
    | none => (.ok (), vault)
    | some s =>
      match store_session vault s.device_id s.access_token s.user_id store_passphrase with
      | (.ok _, vault') => (.ok (), vault')
      | (.error _, _) => (.ok (), vault)

/-- Rust `MatrixBot::connect`: no-op when already connected; otherwise, if the
vault reports a stored session, try to read it — on a vault read failure
fall back to `login_and_store_session`, but an invalid stored user id or a
failed engine `restore_session` propagates as an error; with no stored
session log in directly.  Then (after best-effort verification/encryption
setup) join the room, backfill history, and publish the connection. -/
def connect (env : ConnectEnv) (room_id : String) (store_passphrase : List Nat)
    (history_limit : Nat) (vault : VaultState) (st : BotState) :
    Except String Unit × VaultState × BotState :=
  if st.connected then (.ok (), vault, st)
  else
    let auth : Except String Unit × VaultState :=
      if session_exists vault then
        match get_session vault store_passphrase with
        | .ok (_d, _tok, u) =>
          if env.validUserId u then
            match env.restoreResult with
            | .ok _ => (.ok (), vault)
            | .error e => (.error e, vault)
          else (.error ("Invalid user ID format: " ++ u), vault)
        | .error _ => login_and_store_session env store_passphrase vault
      else login_and_store_session env store_passphrase vault
    match auth with
    | (.error e, vault') => (.error e, vault', st)
    | (.ok _, vault') =>
      if env.validRoomId room_id then
        match env.joinResult with
        | .error e => (.error e, vault', st)
        | .ok _ =>
          let st1 := load_message_history env.roomKnown env.send history_limit st
          (.ok (), vault', { st1 with connected := true })
      else (.error "invalid room id", vault', st)

/-! #### Verification (MatrixBot::setup_verification_handlers monitor loop,
MatrixBot::accept_verification, MatrixBot::cancel_verification) -/

/-- The observable behaviour of an engine `VerificationRequest` object. -/
structure ReqObj where
  acceptResult : Except String Unit
  cancelResult : Except String Unit

/-- The observable behaviour of an engine `SasVerification` object, as the
bot reads it at one poll. -/
structure SasObj where
  canBePresented : Bool
  isDone : Bool
  emoji : Option (List (String × String))
  decimals : Option (Nat × Nat × Nat)
  acceptResult : Except String Unit
  confirmResult : Except String Unit
  cancelResult : Except String Unit

/-- Rust `matrix_sdk::encryption::verification::Verification`: only the `SasV1`
variant is handled; every other variant carries no data the bot reads. -/
inductive VerificationObj where
  | sasV1 (sas : SasObj)
  | other

/-- The engine's verification lookup surface, indexed by an abstract poll
time (first argument), then user id and flow/request id. -/
structure VerifEnv where
  getRequest : Nat → String → String → Option ReqObj
  getVerification : Nat → String → String → Option VerificationObj
  validUserId : String → Bool

/-- One iteration of the `for req_info in requests` body of the background
monitor loop: look the request up as a verification; when it is SAS and can
be presented, publish its challenge only if the active slot is empty or
already held by this request; when it reports done, clear the active slot
(unconditionally) and drop the request from tracking. -/
def tickStep (env : VerifEnv) (t : Nat) (st : BotState)
    (req : VerificationRequestInfo) : BotState :=
  if env.validUserId req.other_user_id then
    match env.getVerification t req.other_user_id req.request_id with
    | some (.sasV1 sas) =>
      let st1 :=
        if sas.canBePresented then
          let shouldUpdate :=
            match st.active_sas with
            | none => true
            | some a => a.request_id == req.request_id
          if shouldUpdate then
            { st with active_sas := some ⟨req.request_id, sas.emoji, sas.decimals⟩ }
          else st
        else st
      if sas.isDone then
        { st1 with
          active_sas := none,
          verification_requests :=
            st1.verification_requests.filter (fun r => r.request_id ≠ req.request_id) }
      else st1
    | _ => st
  else st

/-- One wake-up of the background monitor loop: iterate over a snapshot of
the tracked requests, applying `tickStep` to each. -/
def monitorTick (env : VerifEnv) (t : Nat) (st : BotState) : BotState :=
  st.verification_requests.foldl (tickStep env t) st

/-- True when `pat` matches the leading characters of `l`. -/
def leadMatch : List Char → List Char → Bool
  | [], _ => true
  | _ :: _, [] => false
  | a :: as, b :: bs => a == b && leadMatch as bs

/-- True when `pat` occurs as a contiguous run somewhere in `l`. -/
def subMatch (pat : List Char) : List Char → Bool
  | [] => leadMatch pat []
  | b :: bs => leadMatch pat (b :: bs) || subMatch pat bs

/-- True when `pat` occurs as a substring of `s` (Rust `str::contains`). -/
def containsSub (s pat : String) : Bool :=
  subMatch pat.toList s.toList

/-- The benign "already accepted" error test used after `sas.accept()`. -/
def benignAcceptErr (e : String) : Bool :=
  containsSub e "already" || containsSub e "accepted"

/-- The wider benign test used in the accept-anyway branch. -/
def benignAcceptErr2 (e : String) : Bool :=
  benignAcceptErr e || containsSub e "state"

/-- The inner `for sas_attempt in 0..10` wait loop of `accept_verification`:
sleep, poll for a SAS verification, accept it (benign errors count as
success, other errors keep retrying); when the fuel runs out the request
was still accepted, so return `Ok`. -/
def sasWaitLoop (env : VerifEnv) (uid rid : String) : Nat → Nat → Except String Unit
  | _, 0 => .ok ()
  | t, fuel + 1 =>
    match env.getVerification t uid rid with
    | some (.sasV1 sas) =>
      match sas.acceptResult with
      | .ok _ => .ok ()
      | .error e =>
        if benignAcceptErr e then .ok ()
        else sasWaitLoop env uid rid (t + 1) fuel
    | _ => sasWaitLoop env uid rid (t + 1) fuel

/-- The branch of `accept_verification` taken when the id is found already
transitioned to a SAS verification object. -/
def acceptSasBranch (sas : SasObj) : Except String Unit :=
  if sas.canBePresented then
    match sas.acceptResult with
    | .ok _ => .ok ()
    | .error e => if benignAcceptErr e then .ok () else .error e
  else
    match sas.acceptResult with
    | .ok _ => .ok ()
    | .error e => if benignAcceptErr2 e then .ok () else .error e

/-- The `for attempt in 0..5` retry loop of `accept_verification`: look for
the verification request (accepting it and then waiting for SAS), else for
an already-transitioned verification object; when neither is found retry,
and after the last attempt fail with not-found. -/
def acceptAttempts (env : VerifEnv) (uid rid : String) : Nat → Nat → Except String Unit
  | _, 0 => .error "Verification request not found after retries"
  | t, fuel + 1 =>
    match env.getRequest t uid rid with
    | some req =>
      match req.acceptResult with
      | .error e => .error e
      | .ok _ => sasWaitLoop env uid rid (t + 1) 10
    | none =>
      match env.getVerification t uid rid with
      | some (.sasV1 sas) => acceptSasBranch sas
      | some .other => .error "Unsupported verification type"
      | none => acceptAttempts env uid rid (t + 1) fuel

/-- Rust `MatrixBot::accept_verification`: requires a live client and a valid
user id, then runs the bounded retry loop (5 attempts). -/
def accept_verification (env : VerifEnv) (st : BotState) (rid uid : String) :
    Except String Unit :=
  if st.connected then
    if env.validUserId uid then acceptAttempts env uid rid 0 5
    else .error "invalid user id"
  else .error "Not connected"

/-- Clear the active SAS challenge only when it belongs to `rid`. -/
def clearMatchingSas (active : Option SasInfo) (rid : String) : Option SasInfo :=
  match active with
  | some s => if s.request_id = rid then none else active
  | none => none

/-- Rust `MatrixBot::cancel_verification`: cancel via the request object if the
engine still has it in that form, else via the SAS object; in both found
branches remove the id from tracking and clear a *matching* active
challenge.  When the engine knows neither form, remove the id from tracking,
clear the active challenge unconditionally, and report success. -/
def cancel_verification (env : VerifEnv) (st : BotState) (rid uid : String) :
    Except String Unit × BotState :=
  if st.connected then
    if env.validUserId uid then
      match env.getRequest 0 uid rid with
      | some req =>
        match req.cancelResult with
        | .error e => (.error e, st)
        | .ok _ =>
          (.ok (), { st with
            verification_requests :=
              st.verification_requests.filter (fun r => r.request_id ≠ rid)
            active_sas := clearMatchingSas st.active_sas rid })
      | none =>
        match env.getVerification 0 uid rid with
        | some v =>
          let cancelRes : Except String Unit :=
            match v with
            | .sasV1 sas => sas.cancelResult
            | .other => .ok ()
          match cancelRes with
          | .error e => (.error e, st)
          | .ok _ =>
            (.ok (), { st with
              verification_requests :=
                st.verification_requests.filter (fun r => r.request_id ≠ rid)
              active_sas := clearMatchingSas st.active_sas rid })
        | none =>
          (.ok (), { st with
            verification_requests :=
              st.verification_requests.filter (fun r => r.request_id ≠ rid)
            active_sas := none })
    else (.error "invalid user id", st)
  else (.error "Not connected", st)

/-! ## Helper lemmas -/

theorem xorKeystream_xorKeystream (key : List Nat) :
    ∀ (i : Nat) (l : List Nat), xorKeystream key i (xorKeystream key i l) = l := by
  intro i l
  induction l generalizing i with
  | nil => rfl
  | cons b rest ih =>
    simp [xorKeystream, Nat.xor_assoc, ih]

theorem length_xorKeystream (key : List Nat) :
    ∀ (i : Nat) (l : List Nat), (xorKeystream key i l).length = l.length := by
  intro i l
  induction l generalizing i with
  | nil => rfl
  | cons b rest ih => simp [xorKeystream, ih]

theorem reverse_take_reverse_eq_drop {α : Type} (l : List α) (n : Nat) :
    (l.reverse.take n).reverse = l.drop (l.length - n) := by
  rw [← List.rtake_eq_reverse_take_reverse]
  rfl

/-! ## Claims -/

/-- C1: for every username, password, and vault passphrase, calling
`get_credentials` with the same passphrase immediately after a successful
`store_credentials(username, password, passphrase)` succeeds and returns
exactly the pair (username, password).  The password bytes come from a Rust
`&str`, hence are valid UTF-8. -/
theorem C1_store_get_roundtrip (st : VaultState) (username : String)
    (password passphrase : List Nat) (hpw : isValidUtf8 password = true) :
    get_credentials (store_credentials st username password passphrase) passphrase =
      .ok (username, password) := by
  simp [get_credentials, store_credentials, decrypt_password, encrypt_password,
        xorKeystream_xorKeystream, hpw]

theorem C1_store_get_roundtrip_witness :
    isValidUtf8 [115, 101, 99, 114, 101, 116] = true ∧
    get_credentials
      (store_credentials none "alice" [115, 101, 99, 114, 101, 116]
        [118, 97, 117, 108, 116, 112, 119])
      [118, 97, 117, 108, 116, 112, 119] =
      .ok ("alice", [115, 101, 99, 114, 101, 116]) :=
  ⟨by decide,
   C1_store_get_roundtrip none "alice" [115, 101, 99, 114, 101, 116]
     [118, 97, 117, 108, 116, 112, 119] (by decide)⟩

/-- C3 is false as stated: storing the password "s" (byte 115) under the
passphrase "vaultpw" and retrieving with the different passphrase "wrongpw"
*succeeds*, returning the garbage byte string "m" (byte 109) instead of
failing — the wrong passphrase is silently accepted. -/
theorem C3_counterexample :
    get_credentials
      (store_credentials none "alice" [115] [118, 97, 117, 108, 116, 112, 119])
      [119, 114, 111, 110, 103, 112, 119] = .ok ("alice", [109]) ∧
    [109] ≠ [115] :=
  ⟨rfl, by decide⟩

/-- C3 (amended): `get_credentials` fails when no credential record exists;
when a record exists it fails exactly when XOR-decrypting the stored
ciphertext with the keystream of the supplied passphrase does not yield
valid UTF-8 — a wrong passphrase whose decryption happens to be valid UTF-8
is silently accepted, returning garbage as a successful retrieval. -/
theorem C3_get_credentials_characterization (pass : List Nat) :
    get_credentials none pass = .error "QueryReturnedNoRows" ∧
    ∀ row : CredRow,
      get_credentials (some row) pass =
        (if isValidUtf8 (xorKeystream (sha256 pass) 0 row.password_encrypted) then
          .ok (row.username, xorKeystream (sha256 pass) 0 row.password_encrypted)
        else .error "Failed to decrypt password") := by
  refine ⟨rfl, fun row => ?_⟩
  by_cases h : isValidUtf8 (xorKeystream (sha256 pass) 0 row.password_encrypted)
  · simp [get_credentials, decrypt_password, h]
  · simp [get_credentials, decrypt_password, h]

/-- C6 is false as stated: after `store_credentials`, a `store_session` with
an empty device id, access token, and user id *succeeds*, yet
`session_exists` still returns false afterwards (the emptiness checks
reject the stored fields). -/
theorem C6_counterexample :
    (store_session (store_credentials none "alice" [115] [118]) "" [] "" [118]).1 =
      .ok () ∧
    session_exists
      (store_session (store_credentials none "alice" [115] [118]) "" [] "" [118]).2 =
      false :=
  ⟨rfl, rfl⟩

/-- C6 (amended): `store_session` fails with the no-credential-row error and
leaves the store unchanged whenever no credential record has been stored
yet; after a successful `store_session` with non-empty device id, access
token, and user id following a prior `store_credentials`, `session_exists`
returns true. -/
theorem C6_store_session_behaviour (st : VaultState) (username : String)
    (pw pass : List Nat) (d : String) (tok : List Nat) (uid : String)
    (hd : d ≠ "") (ht : tok ≠ []) (hu : uid ≠ "") :
    (∀ (d' : String) (tok' : List Nat) (uid' : String) (pass' : List Nat),
      store_session none d' tok' uid' pass' =
        (.error "No credentials row found to update session. Please login first.",
         none)) ∧
    session_exists
      (store_session (store_credentials st username pw pass) d tok uid pass).2 =
      true := by
  refine ⟨fun _ _ _ _ => rfl, ?_⟩
  simp only [store_credentials, store_session, session_exists]
  have hlen : (encrypt_password tok pass).length = tok.length :=
    length_xorKeystream _ 0 tok
  have htok : (encrypt_password tok pass).isEmpty = false := by
    cases h : encrypt_password tok pass with
    | nil =>
      exact absurd (by simpa [h] using hlen.symm) (by simpa using ht)
    | cons a l => rfl
  have hd' : d.isEmpty = false := by
    rw [Bool.eq_false_iff]
    intro h
    exact hd ((String.isEmpty_iff d).mp h)
  have hu' : uid.isEmpty = false := by
    rw [Bool.eq_false_iff]
    intro h
    exact hu ((String.isEmpty_iff uid).mp h)
  simp [htok, hd', hu']

theorem C6_store_session_behaviour_witness :
    ("DEV" ≠ "" ∧ [97] ≠ ([] : List Nat) ∧ "@u:x" ≠ "") ∧
    session_exists
      (store_session (store_credentials none "alice" [115] [118]) "DEV" [97] "@u:x"
        [118]).2 = true :=
  ⟨⟨by decide, by decide, by decide⟩,
   (C6_store_session_behaviour none "alice" [115] [118] "DEV" [97] "@u:x"
     (by decide) (by decide) (by decide)).2⟩

/-- C7: on a vault with stored credentials, `clear_session` nulls exactly
the three session fields: `session_exists` is false immediately afterwards,
while the username and encrypted password are untouched, so
`credentials_exist` stays true and `get_credentials` returns the same
result as before. -/
theorem C7_clear_session_frame (row : CredRow) (pass : List Nat) :
    clear_session (some row) =
      some { row with device_id := none, access_token_encrypted := none,
                      user_id := none } ∧
    session_exists (clear_session (some row)) = false ∧
    credentials_exist (clear_session (some row)) = true ∧
    get_credentials (clear_session (some row)) pass =
      get_credentials (some row) pass :=
  ⟨rfl, rfl, rfl, rfl⟩

/-- C10: every successful `store_credentials` replaces the singleton row by
a fresh one containing only the username and the encrypted password — the
session columns are NULL — so `session_exists` returns false immediately
afterwards: re-storing credentials silently destroys any previously
persisted session fields. -/
theorem C10_store_credentials_destroys_session (st : VaultState)
    (username : String) (pw pass : List Nat) :
    store_credentials st username pw pass =
      some { username := username,
             password_encrypted := encrypt_password pw pass,
             device_id := none, access_token_encrypted := none,
             user_id := none } ∧
    session_exists (store_credentials st username pw pass) = false :=
  ⟨rfl, rfl⟩

/-- C5: after a backfill with limit `n` against a room containing more than
`n` messages, the history buffer holds at most `n` entries: the text
messages among the `n` most recent events (non-text events skipped),
formatted `"sender: body"` in oldest-first order, replacing any prior
buffer contents (the prior state `st` does not appear on the right-hand
side).  `n < 2 ^ 53` reflects ruma's `UInt` bound on the request limit. -/
theorem C5_backfill_bound (room : List TimelineEvent) (st : BotState) (n : Nat)
    (hroom : n < room.length) (hn : n < 2 ^ 53) :
    (load_message_history true (fun l => .ok (fetchRecent room l)) n st).message_history =
      (room.drop (room.length - n)).filterMap formatEvent ∧
    (load_message_history true (fun l => .ok (fetchRecent room l)) n st).message_history.length ≤ n := by
  have heff : effLimit n = n := if_pos hn
  have hhist :
      (load_message_history true (fun l => .ok (fetchRecent room l)) n st).message_history =
        (room.drop (room.length - n)).filterMap formatEvent := by
    simp [load_message_history, fetchRecent, heff, reverse_take_reverse_eq_drop]
  refine ⟨hhist, ?_⟩
  rw [hhist]
  calc ((room.drop (room.length - n)).filterMap formatEvent).length
      ≤ (room.drop (room.length - n)).length := List.length_filterMap_le _ _
    _ ≤ n := by rw [List.length_drop]; omega

theorem C5_backfill_bound_witness :
    (2 < ([⟨"a", .text "m1"⟩, ⟨"b", .other⟩, ⟨"c", .text "m3"⟩] :
        List TimelineEvent).length ∧ 2 < 2 ^ 53) ∧
    (load_message_history true
      (fun l => .ok (fetchRecent [⟨"a", .text "m1"⟩, ⟨"b", .other⟩, ⟨"c", .text "m3"⟩] l))
      2 ⟨false, ["old"], [], none⟩).message_history = ["c: m3"] := by
  refine ⟨⟨by decide, by decide⟩, ?_⟩
  have h := (C5_backfill_bound
    [⟨"a", .text "m1"⟩, ⟨"b", .other⟩, ⟨"c", .text "m3"⟩]
    ⟨false, ["old"], [], none⟩ 2 (by decide) (by decide)).1
  rw [h]
  rfl

/-- C2 is false as stated: with a stored session that the vault reads back
successfully, a failing engine `restore_session` makes `connect` return
that error instead of falling back to a full login — a resume failure
alone does make `connect` fail. -/
theorem C2_counterexample :
    (connect
      { restoreResult := .error "restore failed",
        loginResult := .ok (),
        clientSession := some ⟨"DEV2", [97], "@u:x"⟩,
        validUserId := fun _ => true,
        validRoomId := fun _ => true,
        joinResult := .ok (),
        roomKnown := true,
        send := fun _ => .ok [] }
      "!r:x" [118, 97, 117, 108, 116, 112, 119] 10
      (some { username := "alice", password_encrypted := [0],
              device_id := some "DEV1",
              access_token_encrypted :=
                some (encrypt_password [97] [118, 97, 117, 108, 116, 112, 119]),
              user_id := some "@u:x" })
      ⟨false, [], [], none⟩).1 = .error "restore failed" :=
  rfl

/-- C2 (amended): during `connect`, when a stored session exists, a failure
to *retrieve* it from the vault causes a fallback to a full password login
that persists the new session, so such a resume failure alone never makes
`connect` return an error; a failure to *restore* the retrieved session
against the engine, by contrast, propagates as a `connect` error
(see the counterexample). -/
theorem C2_vault_failure_falls_back (env : ConnectEnv) (room_id : String)
    (pass : List Nat) (limit : Nat) (vault : VaultState) (st : BotState)
    (s : SessionData) (e : String)
    (hconn : st.connected = false)
    (hsess : session_exists vault = true)
    (hget : get_session vault pass = .error e)
    (hlogin : env.loginResult = .ok ())
    (hcs : env.clientSession = some s)
    (hroom : env.validRoomId room_id = true)
    (hjoin : env.joinResult = .ok ()) :
    (connect env room_id pass limit vault st).1 = .ok () ∧
    ∃ row, (connect env room_id pass limit vault st).2.1 = some row ∧
      row.device_id = some s.device_id ∧
      row.access_token_encrypted = some (encrypt_password s.access_token pass) ∧
      row.user_id = some s.user_id := by
  obtain ⟨row0, hv⟩ : ∃ r, vault = some r := by
    cases vault with
    | none => simp [session_exists] at hsess
    | some r => exact ⟨r, rfl⟩
  subst hv
  simp [connect, hconn, hsess, hget, login_and_store_session, hlogin, hcs,
        store_session, hroom, hjoin, load_message_history]
  exact ⟨_, rfl, rfl, rfl, rfl⟩

/-- Engine environment for `connect` in which every call succeeds. -/
def envLoginOk : ConnectEnv :=
  { restoreResult := .ok (),
    loginResult := .ok (),
    clientSession := some ⟨"DEV2", [97], "@u:x"⟩,
    validUserId := fun _ => true,
    validRoomId := fun _ => true,
    joinResult := .ok (),
    roomKnown := true,
    send := fun _ => .ok [] }

/-- A vault row whose stored access token (ciphertext byte 33) decrypts
under the passphrase "vaultpw" to the invalid UTF-8 byte 255, so
`get_session` fails although `session_exists` is true. -/
def vaultBadTok : VaultState :=
  some { username := "alice", password_encrypted := [0],
         device_id := some "DEV1",
         access_token_encrypted := some [33],
         user_id := some "@u:x" }

theorem C2_vault_failure_falls_back_witness :
    (session_exists vaultBadTok = true ∧
     get_session vaultBadTok [118, 97, 117, 108, 116, 112, 119] =
       .error "Failed to decrypt password") ∧
    (connect envLoginOk "!r:x" [118, 97, 117, 108, 116, 112, 119] 10 vaultBadTok
      ⟨false, [], [], none⟩).1 = .ok () :=
  ⟨⟨rfl, rfl⟩,
   (C2_vault_failure_falls_back envLoginOk "!r:x" [118, 97, 117, 108, 116, 112, 119]
     10 vaultBadTok ⟨false, [], [], none⟩ ⟨"DEV2", [97], "@u:x"⟩
     "Failed to decrypt password" rfl rfl rfl rfl rfl rfl rfl).1⟩

/-- A single `tickStep` keeps the active slot on its current owner as long
as the processed request's SAS does not report done. -/
theorem tickStep_keeps_owner (env : VerifEnv) (t : Nat) (st : BotState)
    (req : VerificationRequestInfo) (a : SasInfo)
    (hact : st.active_sas = some a)
    (hnd : ∀ s, env.getVerification t req.other_user_id req.request_id =
      some (.sasV1 s) → s.isDone = false) :
    ∃ a', (tickStep env t st req).active_sas = some a' ∧
      a'.request_id = a.request_id := by
  unfold tickStep
  by_cases hval : env.validUserId req.other_user_id = true
  · cases hv : env.getVerification t req.other_user_id req.request_id with
    | none => exact ⟨a, by simp [hval, hact], rfl⟩
    | some v =>
      cases v with
      | other => exact ⟨a, by simp [hval, hact], rfl⟩
      | sasV1 s =>
        have hdone : s.isDone = false := hnd s hv
        by_cases hp : s.canBePresented = true
        · by_cases he : a.request_id = req.request_id
          · exact ⟨⟨req.request_id, s.emoji, s.decimals⟩,
              by simp [hval, hv, hact, hdone, hp, he], he.symm⟩
          · exact ⟨a, by simp [hval, hv, hact, hdone, hp, he], rfl⟩
        · exact ⟨a, by simp [hval, hv, hact, hdone, hp], rfl⟩
  · rw [Bool.not_eq_true] at hval
    exact ⟨a, by simp [hval, hact], rfl⟩

theorem foldl_tickStep_keeps_owner (env : VerifEnv) (t : Nat) (rid : String) :
    ∀ (l : List VerificationRequestInfo) (st : BotState),
      st.active_sas.map SasInfo.request_id = some rid →
      (∀ req ∈ l, ∀ s, env.getVerification t req.other_user_id req.request_id =
        some (.sasV1 s) → s.isDone = false) →
      (l.foldl (tickStep env t) st).active_sas.map SasInfo.request_id = some rid := by
  intro l
  induction l with
  | nil => intro st h _; exact h
  | cons req rest ih =>
    intro st hact hnd
    obtain ⟨a, ha, hrid⟩ := Option.map_eq_some'.mp hact
    obtain ⟨a', ha', hown⟩ := tickStep_keeps_owner env t st req a ha
      (hnd req (List.mem_cons_self req rest))
    exact ih (tickStep env t st req)
      (by rw [ha', Option.map_some', hown, hrid])
      (fun r hr => hnd r (List.mem_cons_of_mem _ hr))

/-- C4 (amended): at most one SAS challenge is ever active (the slot is a
single `Option`), and while the slot is held by one request a whole
reconciliation tick never hands it to any other request — provided no
tracked request's SAS reports completion.  The proviso is necessary: the
loop clears the slot whenever *any* tracked request's SAS reports done,
not only the owner's (see the counterexample); afterwards another
request's challenge may be promoted on a later tick. -/
theorem C4_active_slot_owner_stable (env : VerifEnv) (t : Nat) (st : BotState)
    (rid : String)
    (hact : st.active_sas.map SasInfo.request_id = some rid)
    (hnd : ∀ req ∈ st.verification_requests, ∀ s,
      env.getVerification t req.other_user_id req.request_id = some (.sasV1 s) →
      s.isDone = false) :
    (monitorTick env t st).active_sas.map SasInfo.request_id = some rid :=
  foldl_tickStep_keeps_owner env t rid st.verification_requests st hact hnd

/-- A SAS object that is presentable and not done. -/
def sasPresentable : SasObj :=
  { canBePresented := true, isDone := false,
    emoji := some [("cat", "Cat")], decimals := none,
    acceptResult := .ok (), confirmResult := .ok (), cancelResult := .ok () }

/-- A SAS object that reports completion. -/
def sasDone : SasObj :=
  { canBePresented := false, isDone := true, emoji := none, decimals := none,
    acceptResult := .ok (), confirmResult := .ok (), cancelResult := .ok () }

/-- Engine in which request "r1" is a live presentable SAS and request
"r2" is a completed SAS. -/
def envC4 : VerifEnv :=
  { getRequest := fun _ _ _ => none,
    getVerification := fun _ _ rid =>
      if rid = "r1" then some (.sasV1 sasPresentable)
      else if rid = "r2" then some (.sasV1 sasDone)
      else none,
    validUserId := fun _ => true }

def reqR1 : VerificationRequestInfo := ⟨"r1", "u1", "d1", "pending"⟩

def reqR2 : VerificationRequestInfo := ⟨"r2", "u2", "d2", "pending"⟩

/-- Bot state tracking "r1" and "r2", with the active challenge owned by
"r1". -/
def stC4 : BotState :=
  { connected := true, message_history := [],
    verification_requests := [reqR1, reqR2],
    active_sas := some ⟨"r1", some [("cat", "Cat")], none⟩ }

/-- C4 is false as stated: with the active challenge held by "r1", whose
SAS is presentable and *not* done, the completion of the other tracked
request "r2" clears the active slot during the tick — the slot is freed
by a request other than its own. -/
theorem C4_counterexample :
    stC4.active_sas = some ⟨"r1", some [("cat", "Cat")], none⟩ ∧
    (envC4.getVerification 0 "u1" "r1" = some (.sasV1 sasPresentable) ∧
      sasPresentable.isDone = false) ∧
    (monitorTick envC4 0 stC4).active_sas = none :=
  ⟨rfl, ⟨rfl, rfl⟩, rfl⟩

/-- Engine that knows no verification request or object at all. -/
def envNone : VerifEnv :=
  { getRequest := fun _ _ _ => none,
    getVerification := fun _ _ _ => none,
    validUserId := fun _ => true }

/-- Bot state tracking only "r2" while the active challenge is "r1"'s. -/
def stR2active : BotState :=
  { connected := true, message_history := [],
    verification_requests := [reqR2],
    active_sas := some ⟨"r1", none, none⟩ }

theorem C4_active_slot_owner_stable_witness :
    stR2active.active_sas.map SasInfo.request_id = some "r1" ∧
    (monitorTick envNone 0 stR2active).active_sas.map SasInfo.request_id =
      some "r1" :=
  ⟨rfl,
   C4_active_slot_owner_stable envNone 0 stR2active "r1" rfl
     (fun _ _ _ hs => Option.noConfusion hs)⟩

/-- C8: when connected, `accept_verification` on an id that the engine never
surfaces — neither as a verification request nor as a verification object —
fails with the not-found error after its bounded retry loop (5 attempts);
the failure is returned as an ordinary error value to the caller. -/
theorem C8_accept_unknown_not_found (env : VerifEnv) (st : BotState)
    (rid uid : String)
    (hconn : st.connected = true)
    (huid : env.validUserId uid = true)
    (hreq : ∀ t, env.getRequest t uid rid = none)
    (hver : ∀ t, env.getVerification t uid rid = none) :
    accept_verification env st rid uid =
      .error "Verification request not found after retries" := by
  have hloop : ∀ (fuel t : Nat), acceptAttempts env uid rid t fuel =
      .error "Verification request not found after retries" := by
    intro fuel
    induction fuel with
    | zero => intro t; rfl
    | succ n ih => intro t; simp [acceptAttempts, hreq t, hver t, ih (t + 1)]
  simp [accept_verification, hconn, huid, hloop 5 0]

theorem C8_accept_unknown_not_found_witness :
    (stR2active.connected = true ∧ envNone.validUserId "@u:x" = true) ∧
    accept_verification envNone stR2active "rX" "@u:x" =
      .error "Verification request not found after retries" :=
  ⟨⟨rfl, rfl⟩,
   C8_accept_unknown_not_found envNone stR2active "rX" "@u:x" rfl rfl
     (fun _ => rfl) (fun _ => rfl)⟩

/-- C9 is false as stated: cancelling the tracked id "r2" when the engine
knows it in neither form returns success, but clears the active challenge
even though it belongs to the different request "r1". -/
theorem C9_counterexample :
    (cancel_verification envNone stR2active "r2" "@u:x").1 = .ok () ∧
    stR2active.active_sas = some ⟨"r1", none, none⟩ ∧
    (cancel_verification envNone stR2active "r2" "@u:x").2.active_sas = none :=
  ⟨rfl, rfl, rfl⟩

/-- C9 (amended): when connected and given a well-formed user id,
`cancel_verification` (i) treats an id the engine knows in neither form as
an idempotent no-op success, removing it from tracking but clearing the
active challenge *unconditionally*; (ii) on every successful cancellation
the id is no longer tracked; and (iii) when the engine still knows the id
in either form, an active challenge belonging to a different request
survives the cancellation. -/
theorem C9_cancel_behaviour (env : VerifEnv) (st : BotState) (rid uid : String)
    (hconn : st.connected = true) (huid : env.validUserId uid = true) :
    (env.getRequest 0 uid rid = none → env.getVerification 0 uid rid = none →
      (cancel_verification env st rid uid).1 = .ok () ∧
      (cancel_verification env st rid uid).2.verification_requests =
        st.verification_requests.filter (fun r => r.request_id ≠ rid) ∧
      (cancel_verification env st rid uid).2.active_sas = none) ∧
    (∀ r ∈ (cancel_verification env st rid uid).2.verification_requests,
      (cancel_verification env st rid uid).1 = .ok () → r.request_id ≠ rid) ∧
    (∀ a, st.active_sas = some a → a.request_id ≠ rid →
      ((env.getRequest 0 uid rid).isSome ∨ (env.getVerification 0 uid rid).isSome) →
      (cancel_verification env st rid uid).1 = .ok () →
      (cancel_verification env st rid uid).2.active_sas = some a) := by
  have hfilter : ∀ r ∈ st.verification_requests.filter (fun r => r.request_id ≠ rid),
      r.request_id ≠ rid := by
    intro r hr
    have := List.of_mem_filter hr
    simpa using this
  cases hr : env.getRequest 0 uid rid with
  | some req =>
    cases hc : req.cancelResult with
    | error e =>
      refine ⟨fun h0 _ => by simp at h0, ?_, ?_⟩
      · intro r hmem hok
        simp [cancel_verification, hconn, huid, hr, hc] at hok
      · intro a _ _ _ hok
        simp [cancel_verification, hconn, huid, hr, hc] at hok
    | ok u =>
      refine ⟨fun h0 _ => by simp at h0, ?_, ?_⟩
      · intro r hmem _
        simp only [cancel_verification, hconn, huid, hr, hc, if_true] at hmem
        exact hfilter r hmem
      · intro a ha hne _ _
        simp [cancel_verification, hconn, huid, hr, hc, clearMatchingSas, ha, hne]
  | none =>
    cases hv : env.getVerification 0 uid rid with
    | some v =>
      cases v with
      | sasV1 sas =>
        cases hc2 : sas.cancelResult with
        | error e =>
          refine ⟨fun _ h0 => by simp at h0, ?_, ?_⟩
          · intro r hmem hok
            simp [cancel_verification, hconn, huid, hr, hv, hc2] at hok
          · intro a _ _ _ hok
            simp [cancel_verification, hconn, huid, hr, hv, hc2] at hok
        | ok u =>
          refine ⟨fun _ h0 => by simp at h0, ?_, ?_⟩
          · intro r hmem _
            simp only [cancel_verification, hconn, huid, hr, hv, hc2,
              if_true] at hmem
            exact hfilter r hmem
          · intro a ha hne _ _
            simp [cancel_verification, hconn, huid, hr, hv, hc2,
                  clearMatchingSas, ha, hne]
      | other =>
        refine ⟨fun _ h0 => by simp at h0, ?_, ?_⟩
        · intro r hmem _
          simp only [cancel_verification, hconn, huid, hr, hv, if_true] at hmem
          exact hfilter r hmem
        · intro a ha hne _ _
          simp [cancel_verification, hconn, huid, hr, hv, clearMatchingSas,
                ha, hne]
    | none =>
      refine ⟨fun _ _ => ?_, ?_, ?_⟩
      · exact ⟨by simp [cancel_verification, hconn, huid, hr, hv],
          by simp [cancel_verification, hconn, huid, hr, hv],
          by simp [cancel_verification, hconn, huid, hr, hv]⟩
      · intro r hmem _
        simp only [cancel_verification, hconn, huid, hr, hv, if_true] at hmem
        exact hfilter r hmem
      · intro a _ _ hsome _
        rcases hsome with h | h
        · simp at h
        · simp at h

theorem C9_cancel_behaviour_witness :
    (stR2active.connected = true ∧ envNone.validUserId "@u:x" = true) ∧
    ((cancel_verification envNone stR2active "r2" "@u:x").1 = .ok () ∧
      (cancel_verification envNone stR2active "r2" "@u:x").2.verification_requests =
        stR2active.verification_requests.filter (fun r => r.request_id ≠ "r2") ∧
      (cancel_verification envNone stR2active "r2" "@u:x").2.active_sas = none) :=
  ⟨⟨rfl, rfl⟩,
   (C9_cancel_behaviour envNone stR2active "r2" "@u:x" rfl rfl).1 rfl rfl⟩

end MatrixWeb
